import Mathlib

/-!
Verification of the caching-and-fallback core of the history_portal
application: the event Record Store (`utils/csv_handler.py`), the Event
Source (`utils/api_handler.py`) and the Image Source with its Image Cache
and daily Quota Counter (`utils/image_handler.py`).

The Python code is shallowly embedded: file contents become explicit
lists, network interaction becomes an explicit outcome parameter, and
each operation returns its result together with the new state and counts
of the network requests it issued.
-/

set_option autoImplicit false

namespace HistoryPortal

/-! ### String helpers

Python `str.endswith` and `str.lower`, modelled over the character list
of a `String` so that concrete instances reduce by `rfl`/`decide`. -/

/-- Checks that the first list is a prefix of the second (character by
character). Applied to reversed lists it implements a suffix test. -/
def prefixEq : List Char → List Char → Bool
  | [], _ => true
  | _ :: _, [] => false
  | a :: as, b :: bs => a = b && prefixEq as bs

/-- Model of Python `s.endswith(pat)`. -/
def strEndsWith (s pat : String) : Bool :=
  prefixEq pat.data.reverse s.data.reverse

/-- Model of Python `s.lower()` (ASCII case, which is all the code uses:
the only application is the suffix `.png`). -/
def strToLower (s : String) : String :=
  String.mk (s.data.map Char.toLower)

/-- Zero-padded two-digit rendering, Python `f"{n:02d}"` for n ≥ 0. -/
def pad2 (n : Nat) : String :=
  if n < 10 then "0" ++ toString n else toString n

/-! ### Image cache (`ImageHandler` CSV cache, image_handler.py) -/

/-- One data row of `image_cache.csv` (header `query,url,timestamp,local_path`).
Timestamps are seconds; the code stores `datetime.now().isoformat()`. -/
structure CacheRow where
  query : String
  url : String
  timestamp : Nat
  local_path : String
  deriving DecidableEq

/-- `ImageHandler._get_cached_url` (image_handler.py lines 231-242): scan
the cache rows in file order and return `(url, local_path)` of the first
row whose query matches exactly. The code checks only `row[0] == query`
(row width is structural here); it consults neither the timestamp column
nor the filesystem. -/
def get_cached_url : List CacheRow → String → Option (String × String)
  | [], _ => none
  | r :: rest, q => if r.query = q then some (r.url, r.local_path) else get_cached_url rest q

/-- `ImageHandler.decrease_api_counter` (lines 92-96): decrement with a
floor at zero (the in-memory arithmetic; persistence is modelled in the
quota-state section below). -/
def decrease_api_counter (calls : Int) : Int :=
  if calls > 0 then calls - 1 else calls

/-- One candidate item of the search response; the code reads `item['link']`. -/
structure SearchItem where
  link : String
  deriving DecidableEq

/-- Body of a status-200 search response, read by `response.json()`:
either that call raises (unparsable body — the code reaches it only after
the decrement at line 192), or it parses to a JSON object with an
optional `items` list (`none` models a body without the `items` key). -/
inductive JsonBody where
  | raises : JsonBody
  | parsed (items : Option (List SearchItem)) : JsonBody

/-- Outcome of the one `requests.get` to the search endpoint: `exc` means
`requests.get` itself raised, so no response (and no status) ever
arrived; `resp` means a response with an HTTP status came back, carrying
the body that `response.json()` would yield (the code parses it only in
the status-200 branch). -/
inductive SearchOutcome where
  | exc : SearchOutcome
  | resp (status : Nat) (body : JsonBody) : SearchOutcome

/-- Result of `get_image_url`: the returned pair, the new handler state,
and how many search requests, image downloads and quota decrements the
call performed. -/
structure ImgState where
  api_calls_left : Int
  cache : List CacheRow
  deriving DecidableEq

structure UrlResult where
  result : Option (String × String)
  state : ImgState
  searchCalls : Nat
  downloadCalls : Nat
  decrements : Nat
  deriving DecidableEq

/-- The `for item in data['items']` loop of `get_image_url` (lines
195-205): take the first item whose lowercased link ends in `.png` and
whose download succeeds; `_cache_url` appends a row just before the
return. A failed download moves on to the next item. The third component
counts download attempts. -/
def scanItems (download : String → Option String) (q : String) (now : Nat)
    (cache : List CacheRow) : List SearchItem → Option (String × String) × List CacheRow × Nat
  | [] => (none, cache, 0)
  | it :: rest =>
    if strEndsWith (strToLower it.link) ".png" then
      match download it.link with
      | some path => (some (it.link, path), cache ++ [⟨q, it.link, now, path⟩], 1)
      | none =>
        match scanItems download q now cache rest with
        | (res, c, n) => (res, c, n + 1)
    else scanItems download q now cache rest

/-- `ImageHandler.get_image_url` (lines 155-209). Order of the code:
quota guard first, then the cache lookup, then the single search request.
On HTTP 200 the counter is decreased (line 192) before `response.json()`
is called (line 194), so the decrement stands even when the body fails to
parse (`JsonBody.raises`: the exception is caught and `(None, None)` is
returned with the decrement already persisted). On a non-200 status the
200-branch is skipped — no decrement, no body parse, no result. When
`requests.get` itself raises (`SearchOutcome.exc`) nothing is decreased. -/
def get_image_url (st : ImgState) (q : String) (now : Nat)
    (outcome : SearchOutcome) (download : String → Option String) : UrlResult :=
  if st.api_calls_left ≤ 0 then ⟨none, st, 0, 0, 0⟩
  else
    match get_cached_url st.cache q with
    | some r => ⟨some r, st, 0, 0, 0⟩
    | none =>
      match outcome with
      | SearchOutcome.exc => ⟨none, st, 1, 0, 0⟩
      | SearchOutcome.resp status body =>
        if status = 200 then
          match body with
          | JsonBody.raises =>
            ⟨none, ⟨decrease_api_counter st.api_calls_left, st.cache⟩, 1, 0, 1⟩
          | JsonBody.parsed none =>
            ⟨none, ⟨decrease_api_counter st.api_calls_left, st.cache⟩, 1, 0, 1⟩
          | JsonBody.parsed (some its) =>
            ⟨(scanItems download q now st.cache its).1,
             ⟨decrease_api_counter st.api_calls_left, (scanItems download q now st.cache its).2.1⟩,
             1, (scanItems download q now st.cache its).2.2, 1⟩
        else ⟨none, st, 1, 0, 0⟩

/-- Standard base64 alphabet, for `base64.b64encode`. -/
def b64Table : List Char :=
  "ABCDEFGHIJKLMNOPQRSTUVWXYZabcdefghijklmnopqrstuvwxyz0123456789+/".data

def b64Char (n : Nat) : Char := b64Table.getD n 'A'

/-- `base64.b64encode` over a byte list (each entry < 256). -/
def b64encode : List Nat → String
  | [] => ""
  | [a] => String.mk [b64Char (a / 4), b64Char (a % 4 * 16), '=', '=']
  | [a, b] => String.mk [b64Char (a / 4), b64Char (a % 4 * 16 + b / 16), b64Char (b % 16 * 4), '=']
  | a :: b :: c :: rest =>
    String.mk [b64Char (a / 4), b64Char (a % 4 * 16 + b / 16),
      b64Char (b % 16 * 4 + c / 64), b64Char (c % 64)] ++ b64encode rest

/-- Result of `get_image_base64`. -/
structure B64Result where
  result : Option String
  state : ImgState
  searchCalls : Nat
  downloadCalls : Nat
  decrements : Nat
  deriving DecidableEq

/-- `ImageHandler.get_image_base64` (lines 211-229): resolve via
`get_image_url`; when a URL came back, issue a second `requests.get` of
that URL (`fetch` returns `none` for an exception, otherwise status and
content bytes) and base64-encode the response content. Note the code
re-downloads from the remote URL; the cached `local_path` is never read.
All exceptions are caught and become `none`. -/
def get_image_base64 (st : ImgState) (q : String) (now : Nat)
    (outcome : SearchOutcome) (download : String → Option String)
    (fetch : String → Option (Nat × List Nat)) : B64Result :=
  let r := get_image_url st q now outcome download
  match r.result with
  | none => ⟨none, r.state, r.searchCalls, r.downloadCalls, r.decrements⟩
  | some (url, _) =>
    match fetch url with
    | none => ⟨none, r.state, r.searchCalls, r.downloadCalls + 1, r.decrements⟩
    | some (status, content) =>
      if status ≠ 200 then ⟨none, r.state, r.searchCalls, r.downloadCalls + 1, r.decrements⟩
      else ⟨some (b64encode content), r.state, r.searchCalls, r.downloadCalls + 1, r.decrements⟩

/-! ### Quota counter persistence (image_handler.py lines 55-96)

`datetime` values are seconds; Python `.date()` comparison becomes
comparison of the day number `t / 86400`. -/

/-- Content of `api_counter.json`: `{last_reset: ISO datetime, calls_left: int}`. -/
structure QuotaFile where
  last_reset : Nat
  calls_left : Int
  deriving DecidableEq

/-- Day number of a timestamp, modelling `datetime.date()`. -/
def dateOf (t : Nat) : Nat := t / 86400

/-- In-memory counter together with the persisted file (`none` = file absent). -/
structure CounterState where
  api_calls_left : Int
  file : Option QuotaFile
  deriving DecidableEq

/-- `ImageHandler.save_api_counter` (lines 76-86): overwrite the file with
the current time as `last_reset` and the in-memory count. -/
def save_api_counter (calls : Int) (now : Nat) : Option QuotaFile :=
  some ⟨now, calls⟩

/-- `ImageHandler.load_api_counter` (lines 55-74), called from `__init__`:
if the file exists and its `last_reset` date is strictly earlier than
today, reset to 95 and save; if it exists and is from today, adopt its
count without writing; if it is absent (or unreadable, folded into the
absent case), start at 95 and save. -/
def load_api_counter (file : Option QuotaFile) (now : Nat) : CounterState :=
  match file with
  | some data =>
    if dateOf data.last_reset < dateOf now then ⟨95, save_api_counter 95 now⟩
    else ⟨data.calls_left, file⟩
  | none => ⟨95, save_api_counter 95 now⟩

/-- `ImageHandler.get_api_calls_left` (lines 88-90): returns the in-memory
counter unchanged; it performs no date comparison and no reset. -/
def get_api_calls_left (st : CounterState) : Int × CounterState :=
  (st.api_calls_left, st)

/-- `ImageHandler.decrease_api_counter` (lines 92-96) with its
`save_api_counter` call: decrement when positive and persist, else leave
memory and file untouched. -/
def decrease_api_counter_persisted (st : CounterState) (now : Nat) : CounterState :=
  if st.api_calls_left > 0 then
    ⟨st.api_calls_left - 1, save_api_counter (st.api_calls_left - 1) now⟩
  else st

/-! ### Downloaded-image cleanup (image_handler.py lines 98-119) -/

/-- A file of the downloaded-images directory with its creation time. -/
structure FileInfo where
  path : String
  ctime : Nat
  deriving DecidableEq

/-- `ImageHandler.cleanup_images` (lines 98-102), invoked from `__init__`
at startup: `shutil.rmtree` of the whole directory followed by recreating
it empty — every file is removed, whatever its age. -/
def cleanup_images (files : List FileInfo) : List FileInfo :=
  let _ := files
  []

/-- `ImageHandler._cleanup_old_images` (lines 111-119): remove exactly the
files strictly older than `timedelta(days=7)` = 604800 seconds. This
method is defined but never called anywhere in the repository. -/
def cleanup_old_images (now : Nat) : List FileInfo → List FileInfo
  | [] => []
  | f :: rest =>
    if now - f.ctime > 604800 then cleanup_old_images now rest
    else f :: cleanup_old_images now rest

/-! ### Record store (`CSVHandler`, csv_handler.py) -/

/-- One data row of `database/events.csv` (header `Date,Year,Title,Description`). -/
structure Row where
  date : String
  year : String
  title : String
  description : String
  deriving DecidableEq

/-- An event dictionary as the Python code builds it. The CSV read path
constructs `{"year": ..., "text": ...}` only, so the `day` and `month`
keys are optional here (`none` = key absent from the dict). -/
structure EventDict where
  year : String
  text : String
  day : Option Nat
  month : Option Nat
  deriving DecidableEq

/-- `f"-{int(month):02d}-{int(day):02d}"`, the suffix used as lookup key. -/
def datePattern (month day : Nat) : String :=
  "-" ++ pad2 month ++ "-" ++ pad2 day

/-- `CSVHandler.get_events_by_date` (csv_handler.py lines 46-68): scan all
rows, keep those whose `Date` ends with the `-MM-DD` pattern, and project
each to a dict holding only `year` (from the Year column) and `text`
(from the Description column). -/
def csv_get_events_by_date (month day : Nat) : List Row → List EventDict
  | [] => []
  | r :: rest =>
    if strEndsWith r.date (datePattern month day) then
      ⟨r.year, r.description, none, none⟩ :: csv_get_events_by_date month day rest
    else csv_get_events_by_date month day rest

/-- `CSVHandler.check_date_exists` (lines 127-145): true iff some row's
`Date` ends with the `-MM-DD` pattern. -/
def check_date_exists (month day : Nat) : List Row → Bool
  | [] => false
  | r :: rest =>
    if strEndsWith r.date (datePattern month day) then true
    else check_date_exists month day rest

/-- `CSVHandler.add_event` (lines 113-125): append one row. -/
def add_event (store : List Row) (date year title description : String) : List Row :=
  store ++ [⟨date, year, title, description⟩]

/-- The `for event in events` loop of `CSVHandler.save_api_events`
(lines 95-111): append one row per event, with the given date string,
the event year, title `Event from {year}` and the event text. -/
def save_api_events_loop (date : String) (store : List Row) : List EventDict → List Row
  | [] => store
  | e :: rest =>
    save_api_events_loop date (add_event store date e.year ("Event from " ++ e.year) e.text) rest

/-- `CSVHandler.save_api_events` (lines 95-111): the date written is
`f"{datetime.now().year}-{int(month):02d}-{int(day):02d}"`. -/
def save_api_events (store : List Row) (currentYear month day : Nat)
    (events : List EventDict) : List Row :=
  save_api_events_loop (toString currentYear ++ datePattern month day) store events

/-! ### Event source (`APIHandler.get_events_by_date`, api_handler.py lines 53-101) -/

/-- One item of the JSON `data.Events` list; the code tests
`"year" in event and "text" in event`, so both fields are optional
(`str(event["year"])` is already applied in the model). -/
structure ApiItem where
  year? : Option String
  text? : Option String
  deriving DecidableEq

/-- Outcome of the one `requests.get` to the event provider: an exception
(transport or JSON-decode failure), or a status plus — for a parsed body —
the `data.Events` list when the `data`/`Events` keys are present. -/
inductive ApiOutcome where
  | exc : ApiOutcome
  | resp (status : Nat) (events? : Option (List ApiItem)) : ApiOutcome

structure ApiResult where
  events : List EventDict
  store : List Row
  networkCalls : Nat
  deriving DecidableEq

/-- The `for event in api_events` loop (api_handler.py lines 83-91): keep
items having both `year` and `text` (tested in that order), building dicts
that also carry the request day and month as ints. -/
def mapApiEvents (day month : Nat) : List ApiItem → List EventDict
  | [] => []
  | it :: rest =>
    match it.year? with
    | none => mapApiEvents day month rest
    | some y =>
      match it.text? with
      | none => mapApiEvents day month rest
      | some t => ⟨y, t, some day, some month⟩ :: mapApiEvents day month rest

/-- `APIHandler.get_events_by_date` (lines 53-101). Order of the code:
offline mode delegates to the CSV store; otherwise a `check_date_exists`
hit delegates to the CSV store with no request; otherwise one request is
made, and on status 200 with well-formed body the mapped events are
returned, saved through `save_api_events` only when non-empty. Every
failure path returns the empty list. -/
def api_get_events_by_date (onlineMode : Bool) (store : List Row) (currentYear : Nat)
    (month day : Nat) (outcome : ApiOutcome) : ApiResult :=
  if !onlineMode then ⟨csv_get_events_by_date month day store, store, 0⟩
  else if check_date_exists month day store then ⟨csv_get_events_by_date month day store, store, 0⟩
  else
    match outcome with
    | ApiOutcome.exc => ⟨[], store, 1⟩
    | ApiOutcome.resp status events? =>
      if status = 200 then
        match events? with
        | none => ⟨[], store, 1⟩
        | some items =>
          match mapApiEvents day month items with
          | [] => ⟨[], store, 1⟩
          | e :: es =>
            ⟨e :: es, save_api_events store currentYear month day (e :: es), 1⟩
      else ⟨[], store, 1⟩


/-! ### Helper lemmas -/

/-- Events built by the CSV read path carry no `day` or `month` key. -/
theorem mem_csv_events (month day : Nat) (e : EventDict) :
    ∀ store : List Row, e ∈ csv_get_events_by_date month day store →
      e.day = none ∧ e.month = none
  | [] => by intro h; simp [csv_get_events_by_date] at h
  | r :: rest => by
    intro h
    simp only [csv_get_events_by_date] at h
    split at h
    · rcases List.mem_cons.mp h with h1 | h1
      · subst h1; exact ⟨rfl, rfl⟩
      · exact mem_csv_events month day e rest h1
    · exact mem_csv_events month day e rest h

/-- Events built by the remote-fetch mapping carry the request day and month. -/
theorem mem_mapApiEvents (day month : Nat) (e : EventDict) :
    ∀ items : List ApiItem, e ∈ mapApiEvents day month items →
      e.day = some day ∧ e.month = some month
  | [] => by intro h; simp [mapApiEvents] at h
  | it :: rest => by
    intro h
    rcases hy : it.year? with _ | y
    · simp only [mapApiEvents, hy] at h
      exact mem_mapApiEvents day month e rest h
    · rcases ht : it.text? with _ | t
      · simp only [mapApiEvents, hy, ht] at h
        exact mem_mapApiEvents day month e rest h
      · simp only [mapApiEvents, hy, ht] at h
        rcases List.mem_cons.mp h with h1 | h1
        · subst h1; exact ⟨rfl, rfl⟩
        · exact mem_mapApiEvents day month e rest h1

/-- The fetch-path mapping loop equals a `filterMap` over the items. -/
theorem mapApiEvents_eq_filterMap (day month : Nat) :
    ∀ items : List ApiItem,
      mapApiEvents day month items
        = items.filterMap (fun it =>
            match it.year?, it.text? with
            | some y, some t => some ⟨y, t, some day, some month⟩
            | _, _ => none)
  | [] => rfl
  | it :: rest => by
    rcases hy : it.year? with _ | y <;> rcases ht : it.text? with _ | t <;>
      simp [mapApiEvents, hy, ht, List.filterMap_cons,
        mapApiEvents_eq_filterMap day month rest]

/-- The save loop appends one row per event, in order. -/
theorem save_api_events_loop_eq (date : String) :
    ∀ (events : List EventDict) (store : List Row),
      save_api_events_loop date store events
        = store ++ events.map (fun e =>
            (⟨date, e.year, "Event from " ++ e.year, e.text⟩ : Row))
  | [], store => by simp [save_api_events_loop]
  | e :: rest, store => by
    simp [save_api_events_loop, add_event, save_api_events_loop_eq date rest]

/-- On the online fresh-fetch path with a parsed 200 response, the events
returned are exactly the mapped items. -/
theorem api_fetch_events (store : List Row) (currentYear month day : Nat)
    (items : List ApiItem) (hmiss : check_date_exists month day store = false) :
    (api_get_events_by_date true store currentYear month day
        (ApiOutcome.resp 200 (some items))).events = mapApiEvents day month items := by
  simp only [api_get_events_by_date, Bool.not_true, Bool.false_eq_true, if_false, hmiss,
    reduceIte]
  rcases h : mapApiEvents day month items with _ | ⟨e, es⟩ <;> simp [h]

/-- `get_image_base64` passes the state, search count and decrement count
of `get_image_url` through unchanged in every branch. -/
theorem get_image_base64_effects (st : ImgState) (q : String) (now : Nat)
    (oc : SearchOutcome) (download : String → Option String)
    (fetch : String → Option (Nat × List Nat)) :
    (get_image_base64 st q now oc download fetch).state
        = (get_image_url st q now oc download).state ∧
    (get_image_base64 st q now oc download fetch).searchCalls
        = (get_image_url st q now oc download).searchCalls ∧
    (get_image_base64 st q now oc download fetch).decrements
        = (get_image_url st q now oc download).decrements := by
  rcases hr : (get_image_url st q now oc download).result with _ | ⟨url, path⟩
  · simp [get_image_base64, hr]
  · rcases hf : fetch url with _ | ⟨status, content⟩
    · simp [get_image_base64, hr, hf]
    · by_cases hs : status = 200 <;> simp [get_image_base64, hr, hf, hs]

/-- With quota available and a cache hit, `get_image_url` returns the
cached pair and performs no request, no download and no decrement. -/
theorem get_image_url_hit (st : ImgState) (q : String) (now : Nat)
    (oc : SearchOutcome) (download : String → Option String)
    (url path : String) (hq : 0 < st.api_calls_left)
    (hhit : get_cached_url st.cache q = some (url, path)) :
    get_image_url st q now oc download = ⟨some (url, path), st, 0, 0, 0⟩ := by
  have hq' : ¬ st.api_calls_left ≤ 0 := not_le.mpr hq
  simp [get_image_url, hq', hhit]

/-! ### Claim theorems -/

/-- Claim C1 (code bug). The claim says a lookup returns an entry only if
its timestamp is within the 7-day TTL and its recorded local path still
exists on disk. The code (`_get_cached_url`) matches only the query
column: with lookup time 691200 s (= 8 days after the entry timestamp 0,
so 691200 - 0 > 604800, one day past the TTL) and a local path `p` that
exists nowhere (the function never consults the filesystem — it takes no
filesystem input at all), the stale dangling entry is still returned
instead of being treated as a miss, contradicting both the claim and the
docstring of `_get_cached_url` ("if exists and not expired"). -/
theorem c1_stale_dangling_entry_returned :
    get_cached_url [⟨"q", "u", 0, "p"⟩] "q" = some ("u", "p") ∧
    691200 - 0 > 604800 :=
  ⟨rfl, by norm_num⟩

/-- Claim C2 counterexample. The claim says the quota counter is
decremented once per remote search that reaches the provider regardless
of outcome, non-success status included. Concrete run: quota 5, empty
cache, the provider answers with status 404 — the request reached the
provider (`searchCalls = 1`) yet no decrement happened (`decrements = 0`,
counter still 5), because the code decrements only inside the
`status_code == 200` branch. -/
theorem c2_counterexample :
    (get_image_url ⟨5, []⟩ "q" 0 (SearchOutcome.resp 404 (JsonBody.parsed none))
        (fun _ => none)).searchCalls = 1 ∧
    (get_image_url ⟨5, []⟩ "q" 0 (SearchOutcome.resp 404 (JsonBody.parsed none))
        (fun _ => none)).decrements = 0 ∧
    (get_image_url ⟨5, []⟩ "q" 0 (SearchOutcome.resp 404 (JsonBody.parsed none))
        (fun _ => none)).state.api_calls_left = 5 :=
  ⟨rfl, rfl, rfl⟩

/-- Claim C2 as amended: with quota available and a cache miss, exactly
one search request is issued, and the counter is decremented exactly once
when a response with status 200 arrives — whatever follows, including a
body that fails to parse (the decrement at line 192 precedes the
`response.json()` call at line 194), a body without `items`, and any
candidate, extension or download outcome — and not at all when the
response status is non-200 or when `requests.get` itself raises before
any response arrives; in every case a call decrements at most once. -/
theorem c2_amended (st : ImgState) (q : String) (now : Nat)
    (download : String → Option String) (status : Nat)
    (body : JsonBody) (oc : SearchOutcome)
    (hq : 0 < st.api_calls_left) (hmiss : get_cached_url st.cache q = none) :
    (get_image_url st q now (SearchOutcome.resp status body) download).searchCalls = 1 ∧
    (get_image_url st q now (SearchOutcome.resp status body) download).decrements
        = (if status = 200 then 1 else 0) ∧
    (get_image_url st q now SearchOutcome.exc download).decrements = 0 ∧
    (get_image_url st q now oc download).decrements ≤ 1 := by
  have hq' : ¬ st.api_calls_left ≤ 0 := not_le.mpr hq
  refine ⟨?_, ?_, ?_, ?_⟩
  · by_cases hs : status = 200 <;> rcases body with _ | ⟨_ | its⟩ <;>
      simp [get_image_url, hq', hmiss, hs]
  · by_cases hs : status = 200 <;> rcases body with _ | ⟨_ | its⟩ <;>
      simp [get_image_url, hq', hmiss, hs]
  · simp [get_image_url, hq', hmiss]
  · cases oc with
    | exc => simp [get_image_url, hq', hmiss]
    | resp s b =>
      by_cases hs : s = 200 <;> rcases b with _ | ⟨_ | l⟩ <;>
        simp [get_image_url, hq', hmiss, hs]

/-- Claim C2 witness for the amended statement, at quota 5, empty cache,
with a status-200 response whose body fails to parse: the decrement still
happens exactly once, while an exception of the request itself decrements
nothing. -/
theorem c2_amended_witness :
    (0 : Int) < 5 ∧ get_cached_url [] "q" = none ∧
    ((get_image_url ⟨5, []⟩ "q" 0 (SearchOutcome.resp 200 JsonBody.raises)
        (fun _ => none)).searchCalls = 1 ∧
     (get_image_url ⟨5, []⟩ "q" 0 (SearchOutcome.resp 200 JsonBody.raises)
        (fun _ => none)).decrements = (if 200 = 200 then 1 else 0) ∧
     (get_image_url ⟨5, []⟩ "q" 0 SearchOutcome.exc (fun _ => none)).decrements = 0 ∧
     (get_image_url ⟨5, []⟩ "q" 0 SearchOutcome.exc (fun _ => none)).decrements ≤ 1) :=
  ⟨by decide, rfl,
    c2_amended ⟨5, []⟩ "q" 0 (fun _ => none) 200 JsonBody.raises SearchOutcome.exc
      (by decide) rfl⟩

/-- Claim C3 counterexample. The claim says a cache hit is satisfied
entirely from persisted local data with no network call of any kind.
Concrete run: the cache holds an entry for `q` with remote url `u` and
local path `p`; the call performs one download request (`downloadCalls =
1`) of `u`, and returns the base64 of the freshly fetched bytes `[9]` —
not of whatever the local file at `p` contains (the embedded function
takes no reader of local files: the code never opens `local_path`). -/
theorem c3_counterexample :
    get_cached_url [⟨"q", "u", 0, "p"⟩] "q" = some ("u", "p") ∧
    (get_image_base64 ⟨5, [⟨"q", "u", 0, "p"⟩]⟩ "q" 0 SearchOutcome.exc
        (fun _ => none) (fun _ => some (200, [9]))).downloadCalls = 1 ∧
    (get_image_base64 ⟨5, [⟨"q", "u", 0, "p"⟩]⟩ "q" 0 SearchOutcome.exc
        (fun _ => none) (fun _ => some (200, [9]))).result = some (b64encode [9]) :=
  ⟨rfl, rfl, rfl⟩

/-- Claim C3 as amended: on a cache hit (with quota available) the call
issues no search request and no decrement and leaves the state unchanged,
but performs exactly one HTTP GET of the cached remote URL and returns
the base64 encoding of the bytes that GET yields (or `none` on a non-200
status); the cached local file is never read. -/
theorem c3_amended (st : ImgState) (q : String) (now : Nat) (url path : String)
    (oc : SearchOutcome) (download : String → Option String)
    (fetch : String → Option (Nat × List Nat)) (status : Nat) (content : List Nat)
    (hq : 0 < st.api_calls_left)
    (hhit : get_cached_url st.cache q = some (url, path))
    (hfetch : fetch url = some (status, content)) :
    (get_image_base64 st q now oc download fetch).searchCalls = 0 ∧
    (get_image_base64 st q now oc download fetch).decrements = 0 ∧
    (get_image_base64 st q now oc download fetch).state = st ∧
    (get_image_base64 st q now oc download fetch).downloadCalls = 1 ∧
    (get_image_base64 st q now oc download fetch).result
        = (if status = 200 then some (b64encode content) else none) := by
  have hu := get_image_url_hit st q now oc download url path hq hhit
  by_cases hs : status = 200 <;>
    simp [get_image_base64, hu, hfetch, hs]

/-- Claim C3 witness for the amended statement. -/
theorem c3_amended_witness :
    (0 : Int) < 5 ∧
    get_cached_url [⟨"q", "u", 0, "p"⟩] "q" = some ("u", "p") ∧
    ((get_image_base64 ⟨5, [⟨"q", "u", 0, "p"⟩]⟩ "q" 0 SearchOutcome.exc
        (fun _ => none) (fun _ => some (200, [9]))).searchCalls = 0 ∧
     (get_image_base64 ⟨5, [⟨"q", "u", 0, "p"⟩]⟩ "q" 0 SearchOutcome.exc
        (fun _ => none) (fun _ => some (200, [9]))).decrements = 0 ∧
     (get_image_base64 ⟨5, [⟨"q", "u", 0, "p"⟩]⟩ "q" 0 SearchOutcome.exc
        (fun _ => none) (fun _ => some (200, [9]))).state = ⟨5, [⟨"q", "u", 0, "p"⟩]⟩ ∧
     (get_image_base64 ⟨5, [⟨"q", "u", 0, "p"⟩]⟩ "q" 0 SearchOutcome.exc
        (fun _ => none) (fun _ => some (200, [9]))).downloadCalls = 1 ∧
     (get_image_base64 ⟨5, [⟨"q", "u", 0, "p"⟩]⟩ "q" 0 SearchOutcome.exc
        (fun _ => none) (fun _ => some (200, [9]))).result
        = (if 200 = 200 then some (b64encode [9]) else none)) :=
  ⟨by decide, rfl,
    c3_amended ⟨5, [⟨"q", "u", 0, "p"⟩]⟩ "q" 0 "u" "p" SearchOutcome.exc
      (fun _ => none) (fun _ => some (200, [9])) 200 [9] (by decide) rfl rfl⟩

/-- Claim C4 counterexample. The claim says every Quota Counter read or
write entry point resets a stale counter before honoring the call.
Concrete run: the persisted file says last reset at time 0 (day 0) with
42 calls left; at time 432000 (day 5, a strictly later date)
`get_api_calls_left` still answers 42 and leaves the state untouched —
no reset to 95 happens, because only `load_api_counter` (run at
construction) performs the date comparison. -/
theorem c4_counterexample :
    dateOf 0 < dateOf 432000 ∧
    get_api_calls_left ⟨42, some ⟨0, 42⟩⟩ = (42, ⟨42, some ⟨0, 42⟩⟩) ∧
    (42 : Int) ≠ 95 :=
  ⟨by norm_num [dateOf], rfl, by decide⟩

/-- Claim C4 as amended: the stale-date check lives only in
`load_api_counter` (run at initialization): when the persisted last-reset
date is strictly earlier than the current date it resets the counter to
95 and persists the reset, and a missing file also yields 95;
`get_api_calls_left` returns the in-memory counter with no reset check
and no state change, and `decrease_api_counter` never increases the
counter — so between loads the counter is non-increasing. -/
theorem c4_amended (file : QuotaFile) (now now₂ : Nat) (st : CounterState)
    (hstale : dateOf file.last_reset < dateOf now) :
    load_api_counter (some file) now = ⟨95, some ⟨now, 95⟩⟩ ∧
    load_api_counter none now = ⟨95, some ⟨now, 95⟩⟩ ∧
    get_api_calls_left st = (st.api_calls_left, st) ∧
    (decrease_api_counter_persisted st now₂).api_calls_left ≤ st.api_calls_left := by
  refine ⟨?_, rfl, rfl, ?_⟩
  · simp [load_api_counter, save_api_counter, hstale]
  · by_cases h : st.api_calls_left > 0
    · simp only [decrease_api_counter_persisted, if_pos h]
      omega
    · simp [decrease_api_counter_persisted, h]

/-- Claim C4 witness for the amended statement: stale file from day 0
loaded on day 5; decrement probed on the state with 7 calls left. -/
theorem c4_amended_witness :
    dateOf 0 < dateOf 432000 ∧
    (load_api_counter (some ⟨0, 42⟩) 432000 = ⟨95, some ⟨432000, 95⟩⟩ ∧
     load_api_counter none 432000 = ⟨95, some ⟨432000, 95⟩⟩ ∧
     get_api_calls_left ⟨7, none⟩ = (7, ⟨7, none⟩) ∧
     (decrease_api_counter_persisted ⟨7, none⟩ 5).api_calls_left ≤ 7) :=
  ⟨by norm_num [dateOf],
    c4_amended ⟨0, 42⟩ 432000 5 ⟨7, none⟩ (by norm_num [dateOf])⟩

/-- Claim C5 counterexample. The claim says the startup cleanup deletes
only files older than 7 days and preserves every newer file. Concrete
run: at startup time 691200 the directory holds one file created at
691100 — just 100 seconds old, well within 7 days (691200 - 691100 ≤
604800) — and `cleanup_images` (the cleanup `__init__` actually invokes)
deletes it along with everything else, because it removes the whole
directory tree. -/
theorem c5_counterexample :
    (691200 : Nat) - 691100 ≤ 604800 ∧
    cleanup_images [⟨"new", 691100⟩] = [] :=
  ⟨by norm_num, rfl⟩

/-- Claim C5 as amended: the cleanup run at startup (`cleanup_images`)
empties the downloaded-images directory regardless of file age; the
age-based rule lives only in `_cleanup_old_images` — never invoked by the
repository — which, when called, keeps exactly the files at most 7 days
(604800 s) old. -/
theorem c5_amended (files : List FileInfo) (now : Nat) (f : FileInfo) :
    cleanup_images files = [] ∧
    (f ∈ cleanup_old_images now files ↔ f ∈ files ∧ now - f.ctime ≤ 604800) := by
  refine ⟨rfl, ?_⟩
  induction files with
  | nil => simp [cleanup_old_images]
  | cons g rest ih =>
    by_cases h : now - g.ctime > 604800
    · rw [cleanup_old_images, if_pos h, ih]
      constructor
      · rintro ⟨hf, hle⟩; exact ⟨List.mem_cons_of_mem g hf, hle⟩
      · rintro ⟨hf, hle⟩
        rcases List.mem_cons.mp hf with h1 | h1
        · subst h1; exact absurd hle (by omega)
        · exact ⟨h1, hle⟩
    · rw [cleanup_old_images, if_neg h]
      constructor
      · intro hf
        rcases List.mem_cons.mp hf with h1 | h1
        · subst h1; exact ⟨List.mem_cons_self f rest, by omega⟩
        · rcases ih.mp h1 with ⟨hmem, hle⟩
          exact ⟨List.mem_cons_of_mem g hmem, hle⟩
      · rintro ⟨hf, hle⟩
        rcases List.mem_cons.mp hf with h1 | h1
        · subst h1; exact List.mem_cons_self f (cleanup_old_images now rest)
        · exact List.mem_cons_of_mem g (ih.mpr ⟨h1, hle⟩)

/-- Claim C5 witness for the amended statement: a 7-day-plus file and a
fresh file, checked at time 691200. -/
theorem c5_amended_witness :
    cleanup_images [(⟨"old", 0⟩ : FileInfo), ⟨"new", 691100⟩] = [] ∧
    ((⟨"new", 691100⟩ : FileInfo)
        ∈ cleanup_old_images 691200 [⟨"old", 0⟩, ⟨"new", 691100⟩] ↔
      (⟨"new", 691100⟩ : FileInfo) ∈ [(⟨"old", 0⟩ : FileInfo), ⟨"new", 691100⟩] ∧
        691200 - 691100 ≤ 604800) :=
  c5_amended [⟨"old", 0⟩, ⟨"new", 691100⟩] 691200 ⟨"new", 691100⟩

/-- Claim C6 counterexample. The claim says every element returned by
`eventsByDate` carries all four fields with `day`/`month` equal to the
request on the cache-hit path as well. Concrete run: the store already
has a row dated `2025-07-20`, so the online call for (7, 20) takes the
Record-Store hit path and returns a dict holding only `year` and `text`
— its `day` key is absent (`none`), not 20. -/
theorem c6_counterexample :
    (api_get_events_by_date true [⟨"2025-07-20", "1969", "Event from 1969", "Apollo 11 lands"⟩]
        2025 7 20 ApiOutcome.exc).events
      = [⟨"1969", "Apollo 11 lands", none, none⟩] ∧
    (⟨"1969", "Apollo 11 lands", none, none⟩ : EventDict).day ≠ some 20 :=
  ⟨by decide, by decide⟩

/-- Claim C6 as amended: on the fresh-fetch path every returned element
carries `day`/`month` equal to the request arguments; on the offline path
and the Record-Store cache-hit path the returned dicts carry only `year`
and `text` — the `day` and `month` keys are absent. -/
theorem c6_amended (store store₂ : List Row) (currentYear month day : Nat)
    (items : List ApiItem) (oc oc₂ : ApiOutcome) (e eoff ehit : EventDict)
    (hoff : eoff ∈ (api_get_events_by_date false store currentYear month day oc).events)
    (hhas : check_date_exists month day store = true)
    (hhit : ehit ∈ (api_get_events_by_date true store currentYear month day oc₂).events)
    (hmiss : check_date_exists month day store₂ = false)
    (hfetch : e ∈ (api_get_events_by_date true store₂ currentYear month day
        (ApiOutcome.resp 200 (some items))).events) :
    (eoff.day = none ∧ eoff.month = none) ∧
    (ehit.day = none ∧ ehit.month = none) ∧
    (e.day = some day ∧ e.month = some month) := by
  refine ⟨?_, ?_, ?_⟩
  · simp only [api_get_events_by_date, Bool.not_false, if_true] at hoff
    exact mem_csv_events month day eoff store hoff
  · simp only [api_get_events_by_date, Bool.not_true, Bool.false_eq_true, if_false,
      hhas, if_true] at hhit
    exact mem_csv_events month day ehit store hhit
  · rw [api_fetch_events store₂ currentYear month day items hmiss] at hfetch
    exact mem_mapApiEvents day month e items hfetch

/-- Claim C6 witness for the amended statement, with a one-row cached
store for the hit and offline paths and a two-item provider response
(one item lacking `year`) for the fetch path. -/
theorem c6_amended_witness :
    ((⟨"1969", "Apollo", none, none⟩ : EventDict)
        ∈ (api_get_events_by_date false [⟨"2025-07-20", "1969", "t", "Apollo"⟩] 2025 7 20
            ApiOutcome.exc).events) ∧
    check_date_exists 7 20 [⟨"2025-07-20", "1969", "t", "Apollo"⟩] = true ∧
    ((⟨"1969", "Apollo", none, none⟩ : EventDict)
        ∈ (api_get_events_by_date true [⟨"2025-07-20", "1969", "t", "Apollo"⟩] 2025 7 20
            ApiOutcome.exc).events) ∧
    check_date_exists 7 20 [] = false ∧
    ((⟨"1969", "Apollo 11 lands", some 20, some 7⟩ : EventDict)
        ∈ (api_get_events_by_date true [] 2025 7 20
            (ApiOutcome.resp 200
              (some [⟨some "1969", some "Apollo 11 lands"⟩, ⟨none, some "x"⟩]))).events) ∧
    (((⟨"1969", "Apollo", none, none⟩ : EventDict).day = none ∧
      (⟨"1969", "Apollo", none, none⟩ : EventDict).month = none) ∧
     ((⟨"1969", "Apollo", none, none⟩ : EventDict).day = none ∧
      (⟨"1969", "Apollo", none, none⟩ : EventDict).month = none) ∧
     ((⟨"1969", "Apollo 11 lands", some 20, some 7⟩ : EventDict).day = some 20 ∧
      (⟨"1969", "Apollo 11 lands", some 20, some 7⟩ : EventDict).month = some 7)) :=
  ⟨by decide, by decide, by decide, by decide, by decide,
    c6_amended [⟨"2025-07-20", "1969", "t", "Apollo"⟩] [] 2025 7 20
      [⟨some "1969", some "Apollo 11 lands"⟩, ⟨none, some "x"⟩]
      ApiOutcome.exc ApiOutcome.exc
      ⟨"1969", "Apollo 11 lands", some 20, some 7⟩
      ⟨"1969", "Apollo", none, none⟩ ⟨"1969", "Apollo", none, none⟩
      (by decide) (by decide) (by decide) (by decide) (by decide)⟩

/-- Claim C7 (confirmed): when the remaining quota is ≤ 0, the full
image-for-query call returns `none` immediately — zero search requests,
zero downloads, zero decrements and an unchanged state — whatever the
query, the provider behaviour or the download functions would have been.
The quota guard is the first statement of `get_image_url`. -/
theorem c7_quota_exhausted_none (st : ImgState) (q : String) (now : Nat)
    (oc : SearchOutcome) (download : String → Option String)
    (fetch : String → Option (Nat × List Nat))
    (h : st.api_calls_left ≤ 0) :
    (get_image_base64 st q now oc download fetch).result = none ∧
    (get_image_base64 st q now oc download fetch).searchCalls = 0 ∧
    (get_image_base64 st q now oc download fetch).downloadCalls = 0 ∧
    (get_image_base64 st q now oc download fetch).decrements = 0 ∧
    (get_image_base64 st q now oc download fetch).state = st := by
  simp [get_image_base64, get_image_url, h]

/-- Claim C7 witness: quota 0 with a nonempty cache and a provider that
would answer 200. -/
theorem c7_quota_exhausted_none_witness :
    (0 : Int) ≤ 0 ∧
    ((get_image_base64 ⟨0, [⟨"q", "u", 0, "p"⟩]⟩ "q" 0 (SearchOutcome.resp 200 (JsonBody.parsed (some [])))
        (fun _ => some "f") (fun _ => some (200, [9]))).result = none ∧
     (get_image_base64 ⟨0, [⟨"q", "u", 0, "p"⟩]⟩ "q" 0 (SearchOutcome.resp 200 (JsonBody.parsed (some [])))
        (fun _ => some "f") (fun _ => some (200, [9]))).searchCalls = 0 ∧
     (get_image_base64 ⟨0, [⟨"q", "u", 0, "p"⟩]⟩ "q" 0 (SearchOutcome.resp 200 (JsonBody.parsed (some [])))
        (fun _ => some "f") (fun _ => some (200, [9]))).downloadCalls = 0 ∧
     (get_image_base64 ⟨0, [⟨"q", "u", 0, "p"⟩]⟩ "q" 0 (SearchOutcome.resp 200 (JsonBody.parsed (some [])))
        (fun _ => some "f") (fun _ => some (200, [9]))).decrements = 0 ∧
     (get_image_base64 ⟨0, [⟨"q", "u", 0, "p"⟩]⟩ "q" 0 (SearchOutcome.resp 200 (JsonBody.parsed (some [])))
        (fun _ => some "f") (fun _ => some (200, [9]))).state = ⟨0, [⟨"q", "u", 0, "p"⟩]⟩) :=
  ⟨by decide,
    c7_quota_exhausted_none ⟨0, [⟨"q", "u", 0, "p"⟩]⟩ "q" 0 (SearchOutcome.resp 200 (JsonBody.parsed (some [])))
      (fun _ => some "f") (fun _ => some (200, [9])) (by decide)⟩

/-- Claim C8 (confirmed): a call satisfied by an Image Cache hit leaves
the quota untouched — the final counter equals the initial one, no
decrement and no search request happens (the subsequent re-download of
the cached URL in `get_image_base64` never touches the counter). -/
theorem c8_cache_hit_preserves_quota (st : ImgState) (q : String) (now : Nat)
    (oc : SearchOutcome) (download : String → Option String)
    (fetch : String → Option (Nat × List Nat)) (url path : String)
    (hq : 0 < st.api_calls_left)
    (hhit : get_cached_url st.cache q = some (url, path)) :
    (get_image_base64 st q now oc download fetch).state.api_calls_left
        = st.api_calls_left ∧
    (get_image_base64 st q now oc download fetch).decrements = 0 ∧
    (get_image_base64 st q now oc download fetch).searchCalls = 0 := by
  obtain ⟨hst, hsc, hdec⟩ := get_image_base64_effects st q now oc download fetch
  have hu := get_image_url_hit st q now oc download url path hq hhit
  rw [hst, hsc, hdec, hu]
  exact ⟨rfl, rfl, rfl⟩

/-- Claim C8 witness: cached entry for `q`, quota 5, re-download
succeeding with status 200. -/
theorem c8_cache_hit_preserves_quota_witness :
    (0 : Int) < 5 ∧
    get_cached_url [⟨"q", "u", 0, "p"⟩] "q" = some ("u", "p") ∧
    ((get_image_base64 ⟨5, [⟨"q", "u", 0, "p"⟩]⟩ "q" 0 SearchOutcome.exc
        (fun _ => none) (fun _ => some (200, [9]))).state.api_calls_left = 5 ∧
     (get_image_base64 ⟨5, [⟨"q", "u", 0, "p"⟩]⟩ "q" 0 SearchOutcome.exc
        (fun _ => none) (fun _ => some (200, [9]))).decrements = 0 ∧
     (get_image_base64 ⟨5, [⟨"q", "u", 0, "p"⟩]⟩ "q" 0 SearchOutcome.exc
        (fun _ => none) (fun _ => some (200, [9]))).searchCalls = 0) :=
  ⟨by decide, rfl,
    c8_cache_hit_preserves_quota ⟨5, [⟨"q", "u", 0, "p"⟩]⟩ "q" 0 SearchOutcome.exc
      (fun _ => none) (fun _ => some (200, [9])) "u" "p" (by decide) rfl⟩

/-- Claim C9 (confirmed): when the Record Store already has entries for
(month, day), the online call returns exactly the stored entries (the CSV
projection, in store order), leaves the store unchanged and performs zero
network calls; hence a repeat call on the resulting store also performs
zero network calls, whatever the provider would have answered either
time. -/
theorem c9_record_hit_no_network (store : List Row) (currentYear month day : Nat)
    (oc oc₂ : ApiOutcome)
    (hhas : check_date_exists month day store = true) :
    (api_get_events_by_date true store currentYear month day oc).events
        = csv_get_events_by_date month day store ∧
    (api_get_events_by_date true store currentYear month day oc).store = store ∧
    (api_get_events_by_date true store currentYear month day oc).networkCalls = 0 ∧
    (api_get_events_by_date true
        (api_get_events_by_date true store currentYear month day oc).store
        currentYear month day oc₂).networkCalls = 0 := by
  simp [api_get_events_by_date, hhas]

/-- Claim C9 witness: a one-row store already holding a `-07-20` record. -/
theorem c9_record_hit_no_network_witness :
    check_date_exists 7 20 [⟨"2025-07-20", "1969", "t", "Apollo"⟩] = true ∧
    ((api_get_events_by_date true [⟨"2025-07-20", "1969", "t", "Apollo"⟩] 2025 7 20
        ApiOutcome.exc).events
        = csv_get_events_by_date 7 20 [⟨"2025-07-20", "1969", "t", "Apollo"⟩] ∧
     (api_get_events_by_date true [⟨"2025-07-20", "1969", "t", "Apollo"⟩] 2025 7 20
        ApiOutcome.exc).store = [⟨"2025-07-20", "1969", "t", "Apollo"⟩] ∧
     (api_get_events_by_date true [⟨"2025-07-20", "1969", "t", "Apollo"⟩] 2025 7 20
        ApiOutcome.exc).networkCalls = 0 ∧
     (api_get_events_by_date true
        (api_get_events_by_date true [⟨"2025-07-20", "1969", "t", "Apollo"⟩] 2025 7 20
          ApiOutcome.exc).store 2025 7 20 ApiOutcome.exc).networkCalls = 0) :=
  ⟨by decide,
    c9_record_hit_no_network [⟨"2025-07-20", "1969", "t", "Apollo"⟩] 2025 7 20
      ApiOutcome.exc ApiOutcome.exc (by decide)⟩

/-- Claim C10 (confirmed): on a successful fetch (status 200, well-formed
body) for an uncached (month, day), the returned sequence is exactly the
items having both `year` and `text`, mapped with `day`/`month` copied
from the request; the store grows by one appended row per mapped event
whose date string is the current calendar year followed by the zero-padded
`-MM-DD` suffix (`datePattern`), with title `Event from {year}` and the
event text; and exactly one network call is made. -/
theorem c10_fetch_maps_and_persists (store : List Row) (currentYear month day : Nat)
    (items : List ApiItem)
    (hmiss : check_date_exists month day store = false) :
    (api_get_events_by_date true store currentYear month day
        (ApiOutcome.resp 200 (some items))).events
      = items.filterMap (fun it =>
          match it.year?, it.text? with
          | some y, some t => some ⟨y, t, some day, some month⟩
          | _, _ => none) ∧
    (api_get_events_by_date true store currentYear month day
        (ApiOutcome.resp 200 (some items))).store
      = store ++ (api_get_events_by_date true store currentYear month day
          (ApiOutcome.resp 200 (some items))).events.map (fun e =>
            (⟨toString currentYear ++ datePattern month day,
              e.year, "Event from " ++ e.year, e.text⟩ : Row)) ∧
    datePattern month day = "-" ++ pad2 month ++ "-" ++ pad2 day ∧
    (api_get_events_by_date true store currentYear month day
        (ApiOutcome.resp 200 (some items))).networkCalls = 1 := by
  have hev := api_fetch_events store currentYear month day items hmiss
  refine ⟨hev.trans (mapApiEvents_eq_filterMap day month items), ?_, rfl, ?_⟩
  · rw [hev]
    simp only [api_get_events_by_date, Bool.not_true, Bool.false_eq_true, if_false,
      hmiss, reduceIte]
    rcases h : mapApiEvents day month items with _ | ⟨e, es⟩
    · simp [h]
    · simp only [h, save_api_events, save_api_events_loop_eq]
  · simp only [api_get_events_by_date, Bool.not_true, Bool.false_eq_true, if_false,
      hmiss, reduceIte]
    rcases h : mapApiEvents day month items with _ | ⟨e, es⟩ <;> simp [h]

/-- Claim C10 witness: empty store, provider answering two items of which
one lacks `year`; the call maps one event and appends one `2025-07-20`
row. -/
theorem c10_fetch_maps_and_persists_witness :
    check_date_exists 7 20 [] = false ∧
    ((api_get_events_by_date true [] 2025 7 20
        (ApiOutcome.resp 200
          (some [⟨some "1969", some "Apollo 11 lands"⟩, ⟨none, some "x"⟩]))).events
      = [⟨some "1969", some "Apollo 11 lands"⟩,
          (⟨none, some "x"⟩ : ApiItem)].filterMap (fun it =>
          match it.year?, it.text? with
          | some y, some t => some ⟨y, t, some 20, some 7⟩
          | _, _ => none) ∧
     (api_get_events_by_date true [] 2025 7 20
        (ApiOutcome.resp 200
          (some [⟨some "1969", some "Apollo 11 lands"⟩, ⟨none, some "x"⟩]))).store
      = [] ++ (api_get_events_by_date true [] 2025 7 20
          (ApiOutcome.resp 200
            (some [⟨some "1969", some "Apollo 11 lands"⟩, ⟨none, some "x"⟩]))).events.map
            (fun e => (⟨toString 2025 ++ datePattern 7 20,
              e.year, "Event from " ++ e.year, e.text⟩ : Row)) ∧
     datePattern 7 20 = "-" ++ pad2 7 ++ "-" ++ pad2 20 ∧
     (api_get_events_by_date true [] 2025 7 20
        (ApiOutcome.resp 200
          (some [⟨some "1969", some "Apollo 11 lands"⟩, ⟨none, some "x"⟩]))).networkCalls
        = 1) :=
  ⟨rfl,
    c10_fetch_maps_and_persists [] 2025 7 20
      [⟨some "1969", some "Apollo 11 lands"⟩, ⟨none, some "x"⟩] rfl⟩

end HistoryPortal
